import Mathlib

/-! Verification of the clinical rule engine in `src/app.py` of the
levothyroxine-calculator repository.

The engine is a pipeline of pure functions over a patient-input record:
risk classification, suppression-level resolution, TSH target-range
resolution, dose calculation with an absolute cap, a textual dose-adjustment
suggestion, and safety flags.  The embedding below translates each Python
function into a Lean function over `ℚ` (the Python floats in this program are
exact decimal constants, so rationals model them exactly).  String enums of
the Python code ("None"/"Mild"/..., "A"/"B", sexes, pregnancy statuses,
indications, ATA risks, response categories) are modelled by inductive types
covering exactly the values the application produces; the defensive
string-normalisation branches of the source (`.lower()`, `.capitalize()`,
`else`-fallbacks for strings outside the enum set) are unreachable under
these types and are noted in comments.  Textual outputs (the dose-adjustment
suggestion strings) are modelled structurally: one constructor per distinct
message branch, carrying the numeric values interpolated into the string.
-/

/-- Suppression level: the Python code's strings "None", "Mild", "Moderate",
"Strong" (an ordered four-level scale). -/
inductive SuppressionLevel where
  | none
  | mild
  | moderate
  | strong
deriving DecidableEq, Repr

/-- Index of a level in the ordered scale `["None", "Mild", "Moderate", "Strong"]`
(`order.index(level)` in `soften_suppression_level`, src/app.py line 91). -/
def levelIndex : SuppressionLevel → ℕ
  | SuppressionLevel.none => 0
  | SuppressionLevel.mild => 1
  | SuppressionLevel.moderate => 2
  | SuppressionLevel.strong => 3

/-- Inverse lookup `order[new_idx]` (src/app.py line 94); indices ≥ 3 map to
Strong (only 0..3 occur). -/
def levelOfIndex : ℕ → SuppressionLevel
  | 0 => SuppressionLevel.none
  | 1 => SuppressionLevel.mild
  | 2 => SuppressionLevel.moderate
  | _ => SuppressionLevel.strong

/-- Scenario tag: "A" (post-RAI hypothyroidism) or "B" (DTC), src/app.py line 227. -/
inductive Scenario where
  | A
  | B
deriving DecidableEq, Repr

/-- Sex as offered by the UI selectbox (src/app.py line 411). -/
inductive Sex where
  | male
  | female
  | other
deriving DecidableEq, Repr

/-- Pregnancy status as offered by the UI selectbox (src/app.py lines 415-424). -/
inductive PregnancyStatus where
  | nonPregnant
  | trimester1
  | trimester2
  | trimester3
  | postpartum
deriving DecidableEq, Repr

/-- Indication as offered by the UI radio (src/app.py lines 427-430). -/
inductive Indication where
  | postRAIHyperthyroidism
  | postThyroidectomyDTC
deriving DecidableEq, Repr

/-- Initial ATA recurrence risk (src/app.py lines 447-450): "Low",
"Intermediate", "High".  `map_ata_risk_and_response` receives it as an
optional value (None in scenario A). -/
inductive ATARisk where
  | low
  | intermediate
  | high
deriving DecidableEq, Repr

/-- Current response to therapy (src/app.py lines 451-454). -/
inductive DiseaseResponse where
  | excellent
  | indeterminate
  | biochemicalIncomplete
  | structuralIncomplete
deriving DecidableEq, Repr

/-- Embedding of `compute_bmi` (src/app.py lines 8-12): None when height is absent or ≤ 0
(the Python `not height_cm` truthiness test on a float is subsumed by
`height_cm <= 0`), else weight / (height in m)². -/
def compute_bmi (weight_kg : ℚ) (height_cm : Option ℚ) : Option ℚ :=
  match height_cm with
  | Option.none => Option.none
  | Option.some h =>
      if h ≤ 0 then Option.none
      else Option.some (weight_kg / (h / 100) ^ 2)

/-- Embedding of `compute_effective_weight` (src/app.py lines 15-28): below BMI 35 (or BMI
undefined) the actual weight is used; at/above 35 an adjusted weight
`ideal + 0.4·(actual − ideal)` clamped into `[ideal, actual]` where
`ideal = 25·(height in m)²`.  The inner `Option.none` branch is unreachable:
`compute_bmi` returns a value only when the height is present. -/
def compute_effective_weight (weight_kg : ℚ) (height_cm : Option ℚ) : ℚ :=
  match compute_bmi weight_kg height_cm with
  | Option.none => weight_kg
  | Option.some bmi =>
      if bmi < 35 then weight_kg
      else
        match height_cm with
        | Option.none => weight_kg
        | Option.some hc =>
            let h_m := hc / 100
            let ideal_weight := 25 * h_m ^ 2
            let adjusted_weight := ideal_weight + 0.4 * (weight_kg - ideal_weight)
            max ideal_weight (min weight_kg adjusted_weight)

/-- Embedding of `map_ata_risk_and_response` (src/app.py lines 31-80): lookup of the
suppression level from ATA risk and response; for high risk with an
excellent response the level depends on years since surgery (≥ 5 → Mild,
else Moderate).  `Option.none` risk/response model the Python `None` (and
any string outside the UI's enum set, which normalises into the same
`else` branches). -/
def map_ata_risk_and_response (risk : Option ATARisk) (response : Option DiseaseResponse)
    (years_since_surgery : Option ℚ) : SuppressionLevel :=
  let yrs := years_since_surgery.getD 0
  match risk with
  | Option.some ATARisk.low =>
      match response with
      | Option.some DiseaseResponse.excellent => SuppressionLevel.none
      | Option.some DiseaseResponse.indeterminate => SuppressionLevel.mild
      | Option.some DiseaseResponse.biochemicalIncomplete => SuppressionLevel.mild
      | Option.some DiseaseResponse.structuralIncomplete => SuppressionLevel.strong
      | Option.none => SuppressionLevel.mild
  | Option.some ATARisk.intermediate =>
      match response with
      | Option.some DiseaseResponse.excellent => SuppressionLevel.mild
      | Option.some DiseaseResponse.indeterminate => SuppressionLevel.mild
      | Option.some DiseaseResponse.biochemicalIncomplete => SuppressionLevel.moderate
      | Option.some DiseaseResponse.structuralIncomplete => SuppressionLevel.strong
      | Option.none => SuppressionLevel.moderate
  | Option.some ATARisk.high =>
      match response with
      | Option.some DiseaseResponse.excellent =>
          if 5 ≤ yrs then SuppressionLevel.mild else SuppressionLevel.moderate
      | Option.some DiseaseResponse.indeterminate => SuppressionLevel.moderate
      | Option.some DiseaseResponse.biochemicalIncomplete => SuppressionLevel.strong
      | Option.some DiseaseResponse.structuralIncomplete => SuppressionLevel.strong
      | Option.none => SuppressionLevel.moderate
  | Option.none => SuppressionLevel.mild

/-- Embedding of `soften_suppression_level` (src/app.py lines 83-94): if CV or bone risk is
high, step the level down one position on the ordered scale, floored at
index 0 (`max(0, idx - 1)`; natural-number subtraction floors at 0 in the
same way).  The string fallback `else 1` for a level outside the scale is
unreachable under the enum type. -/
def soften_suppression_level (level : SuppressionLevel)
    (high_cv_risk high_bone_risk : Bool) : SuppressionLevel :=
  if ¬ (high_cv_risk || high_bone_risk) then level
  else
    let idx := levelIndex level
    let new_idx := idx - 1
    levelOfIndex new_idx

/-- Embedding of `suppression_to_tsh_range` (src/app.py lines 97-118): TSH target range in
mIU/L.  Scenario A is always (0.5, 2.5); scenario B by level, with
(0.0, 0.1) for Strong (an upper bound for display; the goal is < 0.1).
The `.capitalize()` normalisation and the final string fallback are
unreachable under the enum type. -/
def suppression_to_tsh_range (level : SuppressionLevel) (scenario : Scenario) : ℚ × ℚ :=
  match scenario with
  | Scenario.A => (0.5, 2.5)
  | Scenario.B =>
      match level with
      | SuppressionLevel.none => (0.5, 2.0)
      | SuppressionLevel.mild => (0.1, 0.5)
      | SuppressionLevel.moderate => (0.1, 0.5)
      | SuppressionLevel.strong => (0.0, 0.1)

/-- Embedding of `suppression_level_to_factor` (src/app.py lines 121-136): multiplicative
factor on the base replacement dose.  The `.capitalize()` normalisation and
the string fallback are unreachable under the enum type. -/
def suppression_level_to_factor (level : SuppressionLevel) : ℚ :=
  match level with
  | SuppressionLevel.none => 1.0
  | SuppressionLevel.mild => 1.15
  | SuppressionLevel.moderate => 1.25
  | SuppressionLevel.strong => 1.35

/-- Embedding of `base_replacement_mcg_per_kg` (src/app.py lines 139-147): 1.6 mcg/kg/day
for age < 60 without high CV risk, else 0.9 (cautious start). -/
def base_replacement_mcg_per_kg (age : ℕ) (high_cv_risk : Bool) : ℚ :=
  if age < 60 ∧ high_cv_risk = false then 1.6 else 0.9

/-- One safety flag, one constructor per advisory string of
`build_safety_flags` (src/app.py lines 150-201); `highDosePerKg` carries the
mcg/kg value interpolated into its message. -/
inductive SafetyFlag where
  | highCVRiskAvoidAggressiveSuppression
  | highFractureRisk
  | pregnancyGuidelines
  | highDosePerKg (mcg_per_kg : ℚ)
  | tshAlreadyStronglySuppressed
  | nonCancerSuppressionNotIndicated
deriving DecidableEq, Repr

/-- Embedding of `build_safety_flags` (src/app.py lines 150-201): independent additive
advisories appended in source order.  `age` and `sex` are parameters of the
Python function but are not read in its body. -/
def build_safety_flags (age : ℕ) (sex : Sex) (high_cv_risk high_bone_risk : Bool)
    (pregnancy_status : PregnancyStatus) (suggested_mcg_day : ℚ)
    (effective_weight_kg : ℚ) (current_tsh : Option ℚ) (scenario : Scenario)
    (suppression_level : SuppressionLevel) : List SafetyFlag :=
  (if high_cv_risk then [SafetyFlag.highCVRiskAvoidAggressiveSuppression] else []) ++
  (if high_bone_risk ∧ (suppression_level = SuppressionLevel.moderate ∨
      suppression_level = SuppressionLevel.strong)
    then [SafetyFlag.highFractureRisk] else []) ++
  (if pregnancy_status ≠ PregnancyStatus.nonPregnant
    then [SafetyFlag.pregnancyGuidelines] else []) ++
  (if 0 < effective_weight_kg ∧ 2.2 < suggested_mcg_day / effective_weight_kg
    then [SafetyFlag.highDosePerKg (suggested_mcg_day / effective_weight_kg)] else []) ++
  (match current_tsh with
    | Option.some t =>
        if t < 0.1 then [SafetyFlag.tshAlreadyStronglySuppressed] else []
    | Option.none => []) ++
  (if scenario = Scenario.A ∧ suppression_level ≠ SuppressionLevel.none
    then [SafetyFlag.nonCancerSuppressionNotIndicated] else [])

/-- The input record of `calculate_lt4_and_targets` (src/app.py lines 204-224):
the dict entries the function reads. -/
structure Inputs where
  age : ℕ
  sex : Sex
  height_cm : Option ℚ
  weight_kg : ℚ
  pregnancy_status : PregnancyStatus
  indication : Indication
  current_tsh : Option ℚ
  current_lt4 : Option ℚ
  ischemic_hd : Bool
  arrhythmia : Bool
  heart_failure : Bool
  osteoporosis : Bool
  initial_ata_risk : Option ATARisk
  disease_status : Option DiseaseResponse
  time_since_surgery_years : Option ℚ
deriving DecidableEq, Repr

/-- Position of the current dose relative to the recommended range
(src/app.py lines 279-285). -/
inductive DosePosition where
  | below
  | within
  | above
deriving DecidableEq, Repr

/-- The dose-adjustment suggestion (src/app.py lines 287-336), modelled
structurally: one constructor per distinct message string, carrying the
numeric delta and target interpolated into the message where present. -/
inductive DoseAdjustment where
  | titrateUp (delta new_target : ℚ)
  | adviseHighTSHWithinRange
  | adviseHighTSHAboveRange
  | titrateDown (delta new_target : ℚ)
  | cautiousReduction (delta : ℚ)
  | adviseLowTSHBelowRange
  | continueCurrentDose
deriving DecidableEq, Repr

/-- Scenario classification (src/app.py line 227). -/
def scenario_of (i : Inputs) : Scenario :=
  if i.indication = Indication.postRAIHyperthyroidism then Scenario.A else Scenario.B

/-- Flag `high_cv_risk` (src/app.py lines 229-234): age ≥ 70 or ischemic heart
disease or arrhythmia or heart failure. -/
def high_cv_risk_of (i : Inputs) : Bool :=
  decide (70 ≤ i.age) || i.ischemic_hd || i.arrhythmia || i.heart_failure

/-- Flag `high_bone_risk` (src/app.py line 235): osteoporosis or (female and
age ≥ 55). -/
def high_bone_risk_of (i : Inputs) : Bool :=
  i.osteoporosis || (decide (i.sex = Sex.female) && decide (55 ≤ i.age))

/-- Level `suppression_level` (src/app.py lines 238-246): "None" in scenario A; in
scenario B the ATA-table lookup softened by comorbidity risk. -/
def suppression_level_of (i : Inputs) : SuppressionLevel :=
  match scenario_of i with
  | Scenario.A => SuppressionLevel.none
  | Scenario.B =>
      soften_suppression_level
        (map_ata_risk_and_response i.initial_ata_risk i.disease_status
          i.time_since_surgery_years)
        (high_cv_risk_of i) (high_bone_risk_of i)

/-- Pair `(tsh_low, tsh_high)` (src/app.py line 248). -/
def tsh_range_of (i : Inputs) : ℚ × ℚ :=
  suppression_to_tsh_range (suppression_level_of i) (scenario_of i)

/-- Value `effective_weight` (src/app.py line 251). -/
def effective_weight_of (i : Inputs) : ℚ :=
  compute_effective_weight i.weight_kg i.height_cm

/-- Value `factor` (src/app.py line 255): the suppression factor, forced through
the "None" level when the scenario is A. -/
def factor_of (i : Inputs) : ℚ :=
  suppression_level_to_factor
    (if scenario_of i = Scenario.B then suppression_level_of i else SuppressionLevel.none)

/-- Value `suggested_central_mcg_day` before the absolute cap (src/app.py
lines 252-256): base rate × effective weight × suppression factor. -/
def suggested_central0 (i : Inputs) : ℚ :=
  base_replacement_mcg_per_kg i.age (high_cv_risk_of i) * effective_weight_of i
    * factor_of i

/-- Value `suggested_central_mcg_day` after the 250 mcg/day absolute cap
(src/app.py lines 263-265). -/
def suggested_central (i : Inputs) : ℚ :=
  if 250 < suggested_central0 i then 250 else suggested_central0 i

/-- Value `mcg_min` (src/app.py lines 259 and 266): −10% band around the pre-cap
central dose, then lowered to the capped central dose if needed. -/
def mcg_min_of (i : Inputs) : ℚ :=
  min (suggested_central0 i * 0.9) (suggested_central i)

/-- Value `mcg_max` (src/app.py lines 260 and 267): +10% band around the pre-cap
central dose, then raised to the capped central dose if needed. -/
def mcg_max_of (i : Inputs) : ℚ :=
  max (suggested_central0 i * 1.1) (suggested_central i)

/-- Values `mcg_kg_min` and `mcg_kg_max` (src/app.py lines 270-274). -/
def mcg_kg_range_of (i : Inputs) : ℚ × ℚ :=
  if 0 < effective_weight_of i then
    (mcg_min_of i / effective_weight_of i, mcg_max_of i / effective_weight_of i)
  else (0, 0)

/-- Value `dose_adjustment_suggestion` (src/app.py lines 276-336): produced only
when both the current dose and the current TSH are present; classifies the
current dose against the recommended range with a 1e-6 tolerance, then
branches on TSH above / below / within target. -/
def dose_adjustment_of (i : Inputs) : Option DoseAdjustment :=
  match i.current_lt4, i.current_tsh with
  | Option.some current_lt4, Option.some current_tsh =>
      let dose_position : DosePosition :=
        if current_lt4 < mcg_min_of i - 1 / 1000000 then DosePosition.below
        else if mcg_max_of i + 1 / 1000000 < current_lt4 then DosePosition.above
        else DosePosition.within
      if (tsh_range_of i).2 < current_tsh then
        Option.some (match dose_position with
          | DosePosition.below =>
              DoseAdjustment.titrateUp
                (if high_cv_risk_of i then 12.5 else 25.0)
                (min (suggested_central i) (mcg_max_of i))
          | DosePosition.within => DoseAdjustment.adviseHighTSHWithinRange
          | DosePosition.above => DoseAdjustment.adviseHighTSHAboveRange)
      else if current_tsh < (tsh_range_of i).1 then
        Option.some (match dose_position with
          | DosePosition.above =>
              DoseAdjustment.titrateDown
                (if high_cv_risk_of i || high_bone_risk_of i then 12.5 else 25.0)
                (max (suggested_central i) (mcg_min_of i))
          | DosePosition.within =>
              DoseAdjustment.cautiousReduction
                (if high_cv_risk_of i || high_bone_risk_of i then 12.5 else 25.0)
          | DosePosition.below => DoseAdjustment.adviseLowTSHBelowRange)
      else Option.some DoseAdjustment.continueCurrentDose
  | _, _ => Option.none

/-- The result record of `calculate_lt4_and_targets` (src/app.py
lines 363-375); the narrative `special_note` is display text and is not
modelled. -/
structure CalcResult where
  scenario : Scenario
  suppression_level : SuppressionLevel
  tsh_target_range : ℚ × ℚ
  lt4_recommended_mcg_day_range : ℚ × ℚ
  lt4_recommended_mcg_kg_day_range : ℚ × ℚ
  lt4_suggested_central_mcg_day : ℚ
  dose_adjustment_suggestion : Option DoseAdjustment
  followup_TSH_interval_weeks : ℕ
  safety_flags : List SafetyFlag
  effective_weight_kg : ℚ
deriving DecidableEq, Repr

/-- Embedding of `calculate_lt4_and_targets` (src/app.py lines 204-375), assembled from
the helper definitions above, each of which embeds the correspondingly
numbered lines of the source. -/
def calculate_lt4_and_targets (i : Inputs) : CalcResult :=
  { scenario := scenario_of i
    suppression_level := suppression_level_of i
    tsh_target_range := tsh_range_of i
    lt4_recommended_mcg_day_range := (mcg_min_of i, mcg_max_of i)
    lt4_recommended_mcg_kg_day_range := mcg_kg_range_of i
    lt4_suggested_central_mcg_day := suggested_central i
    dose_adjustment_suggestion := dose_adjustment_of i
    followup_TSH_interval_weeks := if high_cv_risk_of i then 8 else 6
    safety_flags :=
      build_safety_flags i.age i.sex (high_cv_risk_of i) (high_bone_risk_of i)
        i.pregnancy_status (suggested_central i) (effective_weight_of i)
        i.current_tsh (scenario_of i) (suppression_level_of i)
    effective_weight_kg := effective_weight_of i }

/-- The signed dose change (in mcg/day) a dose-adjustment suggestion asks
for, when it asks for a numeric change at all: `titrateUp` increases the
dose by its delta, `titrateDown` and `cautiousReduction` decrease it; the
purely advisory messages propose no numeric change. -/
def titrationDelta : DoseAdjustment → Option ℚ
  | DoseAdjustment.titrateUp d _ => Option.some d
  | DoseAdjustment.titrateDown d _ => Option.some (-d)
  | DoseAdjustment.cautiousReduction d => Option.some (-d)
  | _ => Option.none

/-- Copy of an input record with only the pregnancy status replaced; used to
state that a computation does not depend on pregnancy. -/
def setPregnancy (i : Inputs) (p : PregnancyStatus) : Inputs :=
  ⟨i.age, i.sex, i.height_cm, i.weight_kg, p, i.indication, i.current_tsh,
   i.current_lt4, i.ischemic_hd, i.arrhythmia, i.heart_failure, i.osteoporosis,
   i.initial_ata_risk, i.disease_status, i.time_since_surgery_years⟩

/-- Concrete input: a 60-year-old with no cardiac comorbidity (the claimed
cardiovascular age threshold of 60 would classify this patient as high risk;
the code's threshold of 70 does not). -/
def cexC2 : Inputs :=
  ⟨60, Sex.male, Option.none, 70, PregnancyStatus.nonPregnant,
   Indication.postRAIHyperthyroidism, Option.none, Option.none,
   false, false, false, false, Option.none, Option.none, Option.none⟩

/-- Concrete input: a 45-year-old, 70 kg, with ischemic heart disease (so
high CV risk), DTC scenario with low risk and excellent response
(suppression level None). -/
def cexC3 : Inputs :=
  ⟨45, Sex.male, Option.none, 70, PregnancyStatus.nonPregnant,
   Indication.postThyroidectomyDTC, Option.none, Option.none,
   true, false, false, false, Option.some ATARisk.low,
   Option.some DiseaseResponse.excellent, Option.some 2⟩

/-- Concrete input: a pregnant (first trimester) 30-year-old with DTC, high
ATA risk and structural incomplete response (base suppression level Strong),
no cardiovascular or bone comorbidity. -/
def cexC4 : Inputs :=
  ⟨30, Sex.female, Option.none, 70, PregnancyStatus.trimester1,
   Indication.postThyroidectomyDTC, Option.none, Option.none,
   false, false, false, false, Option.some ATARisk.high,
   Option.some DiseaseResponse.structuralIncomplete, Option.some 2⟩

/-- Concrete input: a 45-year-old, 70 kg, post-RAI scenario, on 50 mcg/day
with TSH 10 (above the replacement target), no comorbidity: the engine
suggests titrating up by 25 mcg/day. -/
def witC1 : Inputs :=
  ⟨45, Sex.male, Option.none, 70, PregnancyStatus.nonPregnant,
   Indication.postRAIHyperthyroidism, Option.some 10, Option.some 50,
   false, false, false, false, Option.none, Option.none, Option.none⟩

/-- Concrete input with the current TSH absent: the titration step must be
skipped while everything else is computed. -/
def witC9 : Inputs :=
  ⟨45, Sex.male, Option.some 165, 70, PregnancyStatus.nonPregnant,
   Indication.postRAIHyperthyroidism, Option.none, Option.some 100,
   false, false, false, false, Option.none, Option.none, Option.none⟩

/-- Helper: for a present positive height, `compute_bmi` returns
weight / (height in m)². -/
theorem compute_bmi_of_pos_height (weight_kg height_cm : ℚ) (hh : 0 < height_cm) :
    compute_bmi weight_kg (Option.some height_cm) =
      Option.some (weight_kg / (height_cm / 100) ^ 2) := by
  simp [compute_bmi, not_le.mpr hh]

/-- Helper: closed form of the effective weight for a present positive height. -/
theorem compute_effective_weight_of_pos_height (weight_kg height_cm : ℚ)
    (hh : 0 < height_cm) :
    compute_effective_weight weight_kg (Option.some height_cm) =
      if weight_kg / (height_cm / 100) ^ 2 < 35 then weight_kg
      else
        max (25 * (height_cm / 100) ^ 2)
          (min weight_kg
            (25 * (height_cm / 100) ^ 2 +
              0.4 * (weight_kg - 25 * (height_cm / 100) ^ 2))) := by
  unfold compute_effective_weight
  rw [compute_bmi_of_pos_height weight_kg height_cm hh]

/-- C1: whenever the engine produces a dose-adjustment suggestion that asks
for a numeric dose change (a titration step), the suggested change — and
hence the distance between the recommended next dose and the current dose —
is at most 25 mcg/day in absolute value.  The code has no pregnancy-urgent
or treatment-naive-initiation path, so no produced step is exempt. -/
theorem C1_titration_step_bounded (i : Inputs) (adj : DoseAdjustment) (d : ℚ)
    (h1 : (calculate_lt4_and_targets i).dose_adjustment_suggestion = Option.some adj)
    (h2 : titrationDelta adj = Option.some d) :
    |d| ≤ 25 := by
  have h1' : dose_adjustment_of i = Option.some adj := h1
  unfold dose_adjustment_of at h1'
  rcases hl : i.current_lt4 with _ | clt4 <;> rw [hl] at h1'
  · simp at h1'
  rcases ht : i.current_tsh with _ | ctsh <;> rw [ht] at h1'
  · simp at h1'
  simp only [] at h1'
  split at h1'
  · split at h1' <;>
      (injection h1' with h1'; subst h1') <;>
      simp only [titrationDelta, Option.some.injEq] at h2
    all_goals first
      | (subst h2; split <;> (rw [abs_le]; constructor <;> norm_num))
      | exact absurd h2 (by simp)
  · split at h1'
    · split at h1' <;>
        (injection h1' with h1'; subst h1') <;>
        simp only [titrationDelta, Option.some.injEq] at h2
      all_goals first
        | (rw [← h2]; rw [abs_le]; constructor <;> (split <;> norm_num))
        | exact absurd h2 (by simp)
    · injection h1' with h1'
      subst h1'
      simp [titrationDelta] at h2

/-- Helper for C1's witness: the pre-cap central dose of `witC1` is
1.6 × 70 × 1.0 = 112 mcg/day. -/
theorem witC1_suggested_central0 : suggested_central0 witC1 = 112 := by
  have hb : base_replacement_mcg_per_kg witC1.age (high_cv_risk_of witC1) = 1.6 := rfl
  have hw : effective_weight_of witC1 = 70 := rfl
  have hf : factor_of witC1 = 1.0 := rfl
  show base_replacement_mcg_per_kg witC1.age (high_cv_risk_of witC1)
      * effective_weight_of witC1 * factor_of witC1 = 112
  rw [hb, hw, hf]
  norm_num

/-- Helper for C1's witness: on `witC1` (TSH 10 above the 2.5 target, current
dose 50 below the recommended 100.8–123.2 range, no CV risk), the engine
suggests increasing by 25 mcg/day towards 112. -/
theorem witC1_dose_adjustment :
    (calculate_lt4_and_targets witC1).dose_adjustment_suggestion =
      Option.some (DoseAdjustment.titrateUp 25 112) := by
  have h0 := witC1_suggested_central0
  have hcap : suggested_central witC1 = 112 := by
    rw [suggested_central, h0]; norm_num
  have hmin : mcg_min_of witC1 = 100.8 := by
    rw [mcg_min_of, h0, hcap]; rw [min_def]; norm_num
  have hmax : mcg_max_of witC1 = 123.2 := by
    rw [mcg_max_of, h0, hcap]; rw [max_def]; norm_num
  have htr : tsh_range_of witC1 = (0.5, 2.5) := rfl
  have hcv : high_cv_risk_of witC1 = false := rfl
  have hL : witC1.current_lt4 = Option.some 50 := rfl
  have hT : witC1.current_tsh = Option.some 10 := rfl
  show dose_adjustment_of witC1 = _
  unfold dose_adjustment_of
  rw [hL, hT]
  norm_num [htr, hcv, hcap, hmin, hmax, min_def]

/-- C1 witness: the bound instantiated on the concrete input `witC1`, whose
suggestion is a +25 mcg/day titration step. -/
theorem C1_witness : |(25 : ℚ)| ≤ 25 :=
  C1_titration_step_bounded witC1 (DoseAdjustment.titrateUp 25 112) 25
    witC1_dose_adjustment rfl

/-- C2 (amended): `high_cv_risk` is true exactly when age ≥ 70 or ischemic
heart disease, arrhythmia, or heart failure is present.  The age threshold
is 70 (not 60) and diabetes is not an input of the computation. -/
theorem C2_high_cv_risk_iff (i : Inputs) :
    high_cv_risk_of i = true ↔
      (70 ≤ i.age ∨ i.ischemic_hd = true ∨ i.arrhythmia = true ∨ i.heart_failure = true) := by
  simp [high_cv_risk_of, Bool.or_eq_true, decide_eq_true_eq, or_assoc]

/-- C2 counterexample: a 60-year-old with no cardiac comorbidity is NOT
classified as high cardiovascular risk by the code, although the claim's
age-60 threshold would require `high_cv_risk = true`. -/
theorem C2_counterexample :
    60 ≤ cexC2.age ∧ cexC2.ischemic_hd = false ∧ cexC2.arrhythmia = false ∧
    cexC2.heart_failure = false ∧ high_cv_risk_of cexC2 = false := by
  refine ⟨by decide, rfl, rfl, rfl, by decide⟩

/-- Helper for C3: on `cexC3` (high CV risk, suppression level None,
effective weight 70) the pre-cap central dose is 0.9 × 70 × 1.0 = 63. -/
theorem C3_suggested_central0_cexC3 : suggested_central0 cexC3 = 63 := by
  have hb : base_replacement_mcg_per_kg cexC3.age (high_cv_risk_of cexC3) = 0.9 := rfl
  have hw : effective_weight_of cexC3 = 70 := rfl
  have hf : factor_of cexC3 = 1.0 := rfl
  show base_replacement_mcg_per_kg cexC3.age (high_cv_risk_of cexC3)
      * effective_weight_of cexC3 * factor_of cexC3 = 63
  rw [hb, hw, hf]
  norm_num

/-- C3 counterexample: for a high-CV-risk patient of effective weight 70 with
suppression level None, the code's central dose is 0.9 × 70 = 63 mcg/day,
not the 1.0 × 70 × 1.0 = 70 the claim's rate table (1.0 for high CV risk)
would give. -/
theorem C3_counterexample :
    high_cv_risk_of cexC3 = true ∧
    suppression_level_of cexC3 = SuppressionLevel.none ∧
    effective_weight_of cexC3 = 70 ∧
    (calculate_lt4_and_targets cexC3).lt4_suggested_central_mcg_day = 63 ∧
    (63 : ℚ) ≠ 1.0 * 70 * 1.0 := by
  refine ⟨rfl, rfl, rfl, ?_, by norm_num⟩
  show suggested_central cexC3 = 63
  rw [suggested_central, C3_suggested_central0_cexC3]
  norm_num

/-- C3 (amended): below the 250 mcg/day cap, the central recommended dose is
base_rate × effective_weight × suppression_factor, where base_rate is 1.6
mcg/kg/day when age < 60 and CV risk is not high and 0.9 otherwise, and the
suppression factor is 1.0 / 1.15 / 1.25 / 1.35 for None / Mild / Moderate /
Strong in the cancer scenario and 1.0 in scenario A.  There are no
treatment-naive or pregnancy dose overrides in the code. -/
theorem C3_central_dose_formula (i : Inputs) (h : suggested_central0 i ≤ 250) :
    (calculate_lt4_and_targets i).lt4_suggested_central_mcg_day =
      (if i.age < 60 ∧ high_cv_risk_of i = false then (1.6 : ℚ) else 0.9)
        * compute_effective_weight i.weight_kg i.height_cm
        * (if scenario_of i = Scenario.B then
            (match suppression_level_of i with
              | SuppressionLevel.none => (1.0 : ℚ)
              | SuppressionLevel.mild => 1.15
              | SuppressionLevel.moderate => 1.25
              | SuppressionLevel.strong => 1.35)
          else 1.0) := by
  have hc : (calculate_lt4_and_targets i).lt4_suggested_central_mcg_day
      = suggested_central0 i := by
    show suggested_central i = _
    rw [suggested_central, if_neg (not_lt.mpr h)]
  rw [hc]
  show base_replacement_mcg_per_kg i.age (high_cv_risk_of i)
      * effective_weight_of i * factor_of i = _
  rw [base_replacement_mcg_per_kg, effective_weight_of, factor_of]
  by_cases hs : scenario_of i = Scenario.B
  · rw [if_pos hs, if_pos hs]
    cases hl : suppression_level_of i <;>
      norm_num [suppression_level_to_factor]
  · rw [if_neg hs, if_neg hs]
    norm_num [suppression_level_to_factor]

/-- C3 witness: the amended dose formula instantiated on `cexC3`, whose
pre-cap central dose 63 is below the 250 mcg/day cap. -/
theorem C3_witness :
    (calculate_lt4_and_targets cexC3).lt4_suggested_central_mcg_day =
      (if cexC3.age < 60 ∧ high_cv_risk_of cexC3 = false then (1.6 : ℚ) else 0.9)
        * compute_effective_weight cexC3.weight_kg cexC3.height_cm
        * (if scenario_of cexC3 = Scenario.B then
            (match suppression_level_of cexC3 with
              | SuppressionLevel.none => (1.0 : ℚ)
              | SuppressionLevel.mild => 1.15
              | SuppressionLevel.moderate => 1.25
              | SuppressionLevel.strong => 1.35)
          else 1.0) :=
  C3_central_dose_formula cexC3 (by rw [C3_suggested_central0_cexC3]; norm_num)

/-- C4 counterexample: a pregnant patient whose base-mapped suppression level
is Strong and who has no comorbidity keeps level Strong — the code never
forces it down to Moderate for pregnancy. -/
theorem C4_counterexample :
    cexC4.pregnancy_status = PregnancyStatus.trimester1 ∧
    scenario_of cexC4 = Scenario.B ∧
    map_ata_risk_and_response cexC4.initial_ata_risk cexC4.disease_status
      cexC4.time_since_surgery_years = SuppressionLevel.strong ∧
    (calculate_lt4_and_targets cexC4).suppression_level = SuppressionLevel.strong ∧
    SuppressionLevel.strong ≠ SuppressionLevel.moderate := by
  refine ⟨rfl, rfl, rfl, rfl, by decide⟩

/-- C4 (amended): pregnancy has no effect at all on the resolved suppression
level — the level is invariant under any change of pregnancy status, and in
the cancer scenario it is exactly the base table lookup softened once by
comorbidity (CV/bone) risk.  There is no pregnancy override, so no ordering
or mutual exclusion between a pregnancy step and comorbidity softening
exists in the code. -/
theorem C4_pregnancy_no_suppression_override (i : Inputs) (p : PregnancyStatus) :
    (calculate_lt4_and_targets (setPregnancy i p)).suppression_level =
      (calculate_lt4_and_targets i).suppression_level ∧
    (scenario_of i = Scenario.B →
      (calculate_lt4_and_targets i).suppression_level =
        soften_suppression_level
          (map_ata_risk_and_response i.initial_ata_risk i.disease_status
            i.time_since_surgery_years)
          (high_cv_risk_of i) (high_bone_risk_of i)) := by
  refine ⟨rfl, fun h => ?_⟩
  show suppression_level_of i = _
  unfold suppression_level_of
  rw [h]

/-- C5 counterexample: the Strong level in the cancer scenario resolves to
the range (0.0, 0.1), whose lower bound is 0 and therefore not positive as
the claim requires. -/
theorem C5_counterexample :
    (suppression_to_tsh_range SuppressionLevel.strong Scenario.B).1 = 0 ∧
    ¬ (0 < (suppression_to_tsh_range SuppressionLevel.strong Scenario.B).1) := by
  norm_num [suppression_to_tsh_range]

/-- C5 (amended): for every suppression level and scenario the resolved
target range satisfies 0 ≤ low ≤ high, and the lower bound is strictly
positive except for Strong in the cancer scenario, where it is exactly 0
(the display convention for "TSH < 0.1"). -/
theorem C5_target_range_ordered (level : SuppressionLevel) (scenario : Scenario) :
    0 ≤ (suppression_to_tsh_range level scenario).1 ∧
    (suppression_to_tsh_range level scenario).1 ≤ (suppression_to_tsh_range level scenario).2 ∧
    (0 < (suppression_to_tsh_range level scenario).1 ∨
      (scenario = Scenario.B ∧ level = SuppressionLevel.strong ∧
        (suppression_to_tsh_range level scenario).1 = 0)) := by
  cases level <;> cases scenario <;> norm_num [suppression_to_tsh_range]

/-- C6: comorbidity softening is monotone non-increasing on the ordered
scale and steps exactly one position — when CV or bone risk is high the
softened level's index is the base index minus one (floored at 0 by natural
subtraction), and otherwise the level is unchanged. -/
theorem C6_soften_monotone_one_step (level : SuppressionLevel) (cv bone : Bool) :
    levelIndex (soften_suppression_level level cv bone) ≤ levelIndex level ∧
    ((cv || bone) = true →
      levelIndex (soften_suppression_level level cv bone) = levelIndex level - 1) ∧
    ((cv || bone) = false → soften_suppression_level level cv bone = level) := by
  cases level <;> cases cv <;> cases bone <;> decide

/-- C7: for a positive weight and height with BMI below 30 the weight
normalizer returns the actual weight unchanged (the code's obesity cutoff is
35, so every BMI below 30 takes the unchanged branch). -/
theorem C7_effective_weight_below_bmi30 (weight_kg height_cm : ℚ)
    (hw : 0 < weight_kg) (hh : 0 < height_cm)
    (hbmi : weight_kg / (height_cm / 100) ^ 2 < 30) :
    compute_effective_weight weight_kg (Option.some height_cm) = weight_kg := by
  unfold compute_effective_weight
  rw [compute_bmi_of_pos_height weight_kg height_cm hh]
  exact if_pos (lt_trans hbmi (by norm_num))

/-- C7 witness: 70 kg at 165 cm (BMI ≈ 25.7 < 30) keeps its weight. -/
theorem C7_witness : compute_effective_weight 70 (Option.some 165) = 70 :=
  C7_effective_weight_below_bmi30 70 165 (by norm_num) (by norm_num) (by norm_num)

/-- C8: for BMI ≥ 30 the effective weight lies between the BMI-25 ideal
weight 25·(height in m)² and the actual weight.  (For 30 ≤ BMI < 35 the code
returns the actual weight, which already satisfies the bounds since
BMI ≥ 30 > 25; at/above 35 the adjusted weight is clamped into the
interval.) -/
theorem C8_effective_weight_bounds (weight_kg height_cm : ℚ)
    (hw : 0 < weight_kg) (hh : 0 < height_cm)
    (hbmi : 30 ≤ weight_kg / (height_cm / 100) ^ 2) :
    25 * (height_cm / 100) ^ 2 ≤ compute_effective_weight weight_kg (Option.some height_cm) ∧
    compute_effective_weight weight_kg (Option.some height_cm) ≤ weight_kg := by
  have h2pos : 0 < (height_cm / 100) ^ 2 := by positivity
  have hw30 : 30 * (height_cm / 100) ^ 2 ≤ weight_kg := by
    rwa [le_div_iff₀ h2pos] at hbmi
  have hideal : 25 * (height_cm / 100) ^ 2 ≤ weight_kg := by nlinarith
  rw [compute_effective_weight_of_pos_height weight_kg height_cm hh]
  by_cases hc : weight_kg / (height_cm / 100) ^ 2 < 35
  · rw [if_pos hc]
    exact ⟨hideal, le_refl _⟩
  · rw [if_neg hc]
    constructor
    · exact le_max_left _ _
    · exact max_le hideal (min_le_left _ _)

/-- C8 witness: 120 kg at 160 cm (BMI ≈ 46.9): the effective weight (86.4)
lies between the ideal weight 64 and the actual weight 120. -/
theorem C8_witness :
    25 * ((160 : ℚ) / 100) ^ 2 ≤ compute_effective_weight 120 (Option.some 160) ∧
    compute_effective_weight 120 (Option.some 160) ≤ 120 :=
  C8_effective_weight_bounds 120 160 (by norm_num) (by norm_num) (by norm_num)

/-- C9: when the current TSH or the current dose is absent the engine still
returns a full result — the dose-adjustment suggestion is skipped (None)
while the suppression level, target range, central dose, effective weight
and safety flags are all still computed by the usual pipeline.  (The Lean
embedding is a total function, matching the Python code, which raises no
exception on these inputs.) -/
theorem C9_missing_labs_skip_titration (i : Inputs)
    (h : i.current_tsh = Option.none ∨ i.current_lt4 = Option.none) :
    (calculate_lt4_and_targets i).dose_adjustment_suggestion = Option.none ∧
    (calculate_lt4_and_targets i).suppression_level = suppression_level_of i ∧
    (calculate_lt4_and_targets i).tsh_target_range =
      suppression_to_tsh_range (suppression_level_of i) (scenario_of i) ∧
    (calculate_lt4_and_targets i).lt4_suggested_central_mcg_day = suggested_central i ∧
    (calculate_lt4_and_targets i).effective_weight_kg =
      compute_effective_weight i.weight_kg i.height_cm ∧
    (calculate_lt4_and_targets i).safety_flags =
      build_safety_flags i.age i.sex (high_cv_risk_of i) (high_bone_risk_of i)
        i.pregnancy_status (suggested_central i) (effective_weight_of i)
        i.current_tsh (scenario_of i) (suppression_level_of i) := by
  refine ⟨?_, rfl, rfl, rfl, rfl, rfl⟩
  show dose_adjustment_of i = Option.none
  unfold dose_adjustment_of
  rcases h with h | h <;> rcases hl : i.current_lt4 with _ | clt4 <;>
    rcases ht : i.current_tsh with _ | ctsh <;> simp_all

/-- C9 witness: the skip-titration behaviour instantiated on `witC9`, whose
current TSH is absent. -/
theorem C9_witness :
    (calculate_lt4_and_targets witC9).dose_adjustment_suggestion = Option.none ∧
    (calculate_lt4_and_targets witC9).suppression_level = suppression_level_of witC9 ∧
    (calculate_lt4_and_targets witC9).tsh_target_range =
      suppression_to_tsh_range (suppression_level_of witC9) (scenario_of witC9) ∧
    (calculate_lt4_and_targets witC9).lt4_suggested_central_mcg_day = suggested_central witC9 ∧
    (calculate_lt4_and_targets witC9).effective_weight_kg =
      compute_effective_weight witC9.weight_kg witC9.height_cm ∧
    (calculate_lt4_and_targets witC9).safety_flags =
      build_safety_flags witC9.age witC9.sex (high_cv_risk_of witC9) (high_bone_risk_of witC9)
        witC9.pregnancy_status (suggested_central witC9) (effective_weight_of witC9)
        witC9.current_tsh (scenario_of witC9) (suppression_level_of witC9) :=
  C9_missing_labs_skip_titration witC9 (Or.inl rfl)

/-- C10: the returned recommended dose range always brackets the central
dose — after the 250 mcg/day cap the code lowers the range minimum to the
capped central dose and raises the maximum to it, so
mcg_min ≤ central ≤ mcg_max holds on every input. -/
theorem C10_recommended_range_brackets_central (i : Inputs) :
    (calculate_lt4_and_targets i).lt4_recommended_mcg_day_range.1 ≤
      (calculate_lt4_and_targets i).lt4_suggested_central_mcg_day ∧
    (calculate_lt4_and_targets i).lt4_suggested_central_mcg_day ≤
      (calculate_lt4_and_targets i).lt4_recommended_mcg_day_range.2 := by
  refine ⟨?_, ?_⟩
  · exact min_le_right _ _
  · exact le_max_right _ _
